import Mathlib

/-!
Process-execution wrappers of `examples/systemcalls/systemcalls.c`.

A shallow embedding of `do_system`, `do_exec` and `do_exec_redirect`.

The operating system is an explicit parameter (`World`): it fixes what every
library or system call returns in the process that is being observed.  Each C
function becomes a Lean function from a `World` and the C arguments to a `Run`:
how the observed process leaves the function (`Outcome`) together with the
ordered list of everything it did on the way (`Event`).

`fork` is the one call that returns in two processes.  A `World` describes one
of them: `fork = 0` is the child, any other value is the calling process.
-/

namespace Systemcalls

/-! ## Data model -/

/-- A C value of type `char *`: the null pointer, or a pointer to a
NUL-terminated string whose characters are `s`. -/
inductive CharPtr where
  | null : CharPtr
  | str (s : String) : CharPtr
  deriving DecidableEq

/-- Modelled from the spec: the `<fcntl.h>` flag constants are not part of the
sources; these are the `O_*` flags that can be or-ed into the second argument
of `open`, kept symbolic (a flag word is the list of the flags or-ed into it). -/
inductive OpenFlag where
  | O_RDONLY | O_WRONLY | O_RDWR | O_CREAT | O_EXCL | O_TRUNC | O_APPEND
  deriving DecidableEq

/-- Everything the observed process does while it runs one of the functions,
in program order: reads of the variadic argument list, writes to the local
array `command`, and every library or system call with its arguments. -/
inductive Event where
  /-- The call `va_arg(args, char *)` that fetches variadic argument number `k`. -/
  | va_arg (k : Nat)
  /-- An assignment `command[i] = ...`. -/
  | store (i : Int)
  /-- The call `system(cmd)`. -/
  | system (cmd : String)
  /-- The call `fflush(stdout)`. -/
  | fflush
  /-- The call `fork()`. -/
  | fork
  /-- The call `execv(path, argv)`; `argv` lists every slot of the array passed. -/
  | execv (path : CharPtr) (argv : List CharPtr)
  /-- The call `open(path, flags, mode)`; `flags` lists the or-ed flags. -/
  | open_ (path : String) (flags : List OpenFlag) (mode : Nat)
  /-- The call `dup2(oldfd, newfd)`. -/
  | dup2 (oldfd newfd : Int)
  /-- The call `close(fd)`. -/
  | close (fd : Int)
  /-- The call `waitpid(pid, &status, 0)`. -/
  | waitpid (pid : Int)
  /-- The call `perror(msg)`. -/
  | perror (msg : String)
  /-- The call `exit(status)`. -/
  | exit (status : Int)
  deriving DecidableEq

/-- How the observed process leaves the function. -/
inductive Outcome where
  /-- A `return b;` statement was executed. -/
  | returned (b : Bool)
  /-- The process terminated inside the function through `exit(status)`. -/
  | exited (status : Int)
  /-- A call of `execv` succeeded: the process now runs another program, and
  no further statement of the function is executed. -/
  | replaced
  deriving DecidableEq

/-- One execution of a function by the observed process. -/
structure Run where
  outcome : Outcome
  trace : List Event
  deriving DecidableEq

/-- The environment of one execution: the value every call returns to the
observed process, and the indeterminate initial contents of its stack. -/
structure World where
  /-- Indeterminate initial value of slot `i` of the automatic array `command`. -/
  stack : Nat → CharPtr
  /-- Return value of `system(cmd)`. -/
  system : String → Int
  /-- Return value of `fork()` in the observed process. -/
  fork : Int
  /-- Return value of `execv(path, argv)`; `none` when the call succeeds and
  therefore never returns. -/
  execv : CharPtr → List CharPtr → Option Int
  /-- Return value of `open(path, flags, mode)`. -/
  open_ : String → List OpenFlag → Nat → Int
  /-- Return value of `dup2(oldfd, newfd)`. -/
  dup2 : Int → Int → Int
  /-- Return value of `waitpid(pid, &status, 0)` and the value it stores in
  `status`. -/
  waitpid : Int → Int × Int

/-! ## Constants and macros of the system headers -/

/-- Modelled from the spec: the `<sys/wait.h>` macro `WIFEXITED` is not part of
the sources; a raw wait status is a normal exit when its termination-signal
field `status & 0x7f` is zero. -/
def WIFEXITED (status : Int) : Bool :=
  Int.land status 0x7f == 0

/-- Modelled from the spec: the `<sys/wait.h>` macro `WEXITSTATUS` is not part
of the sources; the exit code is the second byte of the raw wait status,
`(status >> 8) & 0xff`. -/
def WEXITSTATUS (status : Int) : Int :=
  Int.land (Int.shiftRight status 8) 0xff

/-- Modelled from the spec: the `<stdlib.h>` constant `EXIT_FAILURE` is not part
of the sources; it is the non-zero status `1`. -/
def EXIT_FAILURE : Int := 1

/-- Modelled from the spec: the `<unistd.h>` constant `STDOUT_FILENO` is not part
of the sources; standard output is descriptor `1`. -/
def STDOUT_FILENO : Int := 1

/-- Modelled from the spec: the `<sys/stat.h>` constant `S_IRWXU` is not part of
the sources; it is the owner read/write/execute mode `0700`. -/
def S_IRWXU : Nat := 0o700

/-! ## `do_system` (lines 17-29) -/

/-- The function `do_system(cmd)`. -/
def do_system (w : World) (cmd : CharPtr) : Run :=
  match cmd with
  | .null => ⟨.returned false, []⟩
  | .str c =>
    let ret := w.system c
    if ret = -1 ∨ WEXITSTATUS ret ≠ 0 then
      ⟨.returned false, [.system c]⟩
    else
      ⟨.returned true, [.system c]⟩

/-! ## Building the argument vector (lines 51-60 and 103-112) -/

/-- The local array `command` with the events recorded so far. -/
structure Frame where
  command : List CharPtr
  trace : List Event

/-- The declaration `char *command[count + 1];`: `count + 1` slots with
indeterminate contents.  (`count + 1` is computed without wrap-around: the
callers have `1 <= count`, and `count = INT_MAX` would take an argument
vector of `2^31` pointers.) -/
def declare_command (w : World) (count : Int) : Frame :=
  ⟨(List.range (count + 1).toNat).map w.stack, []⟩

/-- The assignment `command[i] = v;`.  A write outside the array leaves the
array as it is; the index is recorded either way. -/
def Frame.assign (fr : Frame) (i : Int) (v : CharPtr) : Frame :=
  ⟨if 0 ≤ i then fr.command.set i.toNat v else fr.command, fr.trace ++ [.store i]⟩

/-- The expression `va_arg(args, char *)` when `k` arguments have been fetched
since `va_start`: it yields variadic argument number `k`. -/
def Frame.va_arg (fr : Frame) (va : Nat → CharPtr) (k : Nat) : CharPtr × Frame :=
  (va k, ⟨fr.command, fr.trace ++ [.va_arg k]⟩)

/-- The loop `for (int i = 0; i < count; i++) command[i] = va_arg(args, char *);`
entered with `i = k` and `n` iterations left. -/
def fill_loop (va : Nat → CharPtr) : Nat → Nat → Frame → Frame
  | 0, _, fr => fr
  | n + 1, k, fr =>
    let (v, fr1) := fr.va_arg va k
    fill_loop va n (k + 1) (fr1.assign (k : Int) v)

/-- Lines 51-60 of `do_exec`, the same as lines 103-112 of `do_exec_redirect`:
declare `command`, copy the `count` variadic arguments into it and store the
terminating null pointer. -/
def build_command (w : World) (count : Int) (va : Nat → CharPtr) : Frame :=
  let fr := declare_command w count
  let fr := fill_loop va count.toNat 0 fr
  fr.assign count .null

/-- The expression `command[0]`. -/
def Frame.first (w : World) (fr : Frame) : CharPtr :=
  fr.command.getD 0 (w.stack 0)

/-! ## `do_exec` (lines 45-90) -/

/-- Lines 77-89 of `do_exec`, the same as lines 141-153 of `do_exec_redirect`:
the calling process waits for the child `pid` and inspects its status. -/
def wait_for_child (w : World) (pid : Int) (t : List Event) : Run :=
  let r := w.waitpid pid
  let t := t ++ [.waitpid pid]
  if r.1 = -1 then
    ⟨.returned false, t ++ [.perror "waitpid failed"]⟩
  else
    let status := r.2
    if WIFEXITED status ∧ WEXITSTATUS status = 0 then
      ⟨.returned true, t⟩
    else
      ⟨.returned false, t⟩

/-- Lines 72-74 of `do_exec`, the same as lines 136-138 of `do_exec_redirect`:
`execv(command[0], command)`, and what follows when that call returns. -/
def exec_command (w : World) (fr : Frame) (t : List Event) : Run :=
  let path := fr.first w
  let t := t ++ [.execv path fr.command]
  match w.execv path fr.command with
  | none => ⟨.replaced, t⟩
  | some _ => ⟨.exited EXIT_FAILURE, t ++ [.perror "execv failed", .exit EXIT_FAILURE]⟩

/-- The function `do_exec(count, ...)`; `va k` is variadic argument number `k`. -/
def do_exec (w : World) (count : Int) (va : Nat → CharPtr) : Run :=
  if count < 1 then
    ⟨.returned false, []⟩
  else
    let fr := build_command w count va
    let t := fr.trace ++ [.fflush]
    let pid := w.fork
    let t := t ++ [.fork]
    if pid = -1 then
      ⟨.returned false, t ++ [.perror "fork failed"]⟩
    else if pid = 0 then
      exec_command w fr t
    else
      wait_for_child w pid t

/-! ## `do_exec_redirect` (lines 97-154) -/

/-- The function `do_exec_redirect(outputfile, count, ...)`. -/
def do_exec_redirect (w : World) (outputfile : CharPtr) (count : Int)
    (va : Nat → CharPtr) : Run :=
  match outputfile with
  | .null => ⟨.returned false, []⟩
  | .str file =>
    if count < 1 then
      ⟨.returned false, []⟩
    else
      let fr := build_command w count va
      let pid := w.fork
      let t := fr.trace ++ [.fork]
      if pid = -1 then
        ⟨.returned false, t ++ [.perror "fork failed"]⟩
      else if pid = 0 then
        let flags := [OpenFlag.O_CREAT, OpenFlag.O_WRONLY, OpenFlag.O_TRUNC]
        let fd := w.open_ file flags S_IRWXU
        let t := t ++ [.open_ file flags S_IRWXU]
        if fd = -1 then
          ⟨.exited EXIT_FAILURE, t ++ [.perror "open failed", .exit EXIT_FAILURE]⟩
        else
          let t := t ++ [.dup2 fd STDOUT_FILENO]
          if w.dup2 fd STDOUT_FILENO = -1 then
            ⟨.exited EXIT_FAILURE,
              t ++ [.perror "dup2 failed", .close fd, .exit EXIT_FAILURE]⟩
          else
            exec_command w fr (t ++ [.close fd])
      else
        wait_for_child w pid t

/-! ## Concrete worlds and argument lists -/

/-- The variadic arguments of a call written with the arguments `l`. -/
def va_of (l : List CharPtr) : Nat → CharPtr :=
  fun k => l.getD k .null

/-- A world seen from the calling process: `fork` gives the child the process
id `pid`, and `waitpid` and `system` both report the raw status `status`. -/
def parentWorld (pid status : Int) : World where
  stack := fun _ => .str "garbage"
  system := fun _ => status
  fork := pid
  execv := fun _ _ => none
  open_ := fun _ _ _ => 3
  dup2 := fun _ n => n
  waitpid := fun p => (p, status)

/-- A world seen from the child: `fork` returns `0`, and `open`, `dup2` and
`execv` return `fd`, `d` and `x`. -/
def childWorld (fd d : Int) (x : Option Int) : World where
  stack := fun _ => .str "garbage"
  system := fun _ => 0
  fork := 0
  execv := fun _ _ => x
  open_ := fun _ _ _ => fd
  dup2 := fun _ _ => d
  waitpid := fun _ => (-1, 0)

/-- The events of the copy loop entered with `i = k` and `n` iterations left:
each iteration fetches one variadic argument and stores it. -/
def fill_events : Nat → Nat → List Event
  | 0, _ => []
  | n + 1, k => Event.va_arg k :: Event.store (k : Int) :: fill_events n (k + 1)

/-- The vector `a_0, ..., a_(count-1), NULL` made of the first `count` variadic
arguments followed by the null pointer. -/
def argv_of (count : Int) (va : Nat → CharPtr) : List CharPtr :=
  (List.range count.toNat).map va ++ [CharPtr.null]

/-- The flags `O_CREAT | O_WRONLY | O_TRUNC`. -/
def redirect_flags : List OpenFlag :=
  [OpenFlag.O_CREAT, OpenFlag.O_WRONLY, OpenFlag.O_TRUNC]

/-! ## Helper lemmas -/

theorem WEXITSTATUS_neg_one : WEXITSTATUS (-1) = 255 := by
  show Int.land (Int.negSucc 0) (Int.ofNat 255) = 255
  show ((Nat.ldiff 255 0 : Nat) : Int) = 255
  simp [Nat.ldiff]

theorem fill_loop_trace (va : Nat → CharPtr) (n k : Nat) (fr : Frame) :
    (fill_loop va n k fr).trace = fr.trace ++ fill_events n k := by
  induction n generalizing k fr with
  | zero => simp [fill_loop, fill_events]
  | succ n ih => simp [fill_loop, fill_events, ih, Frame.va_arg, Frame.assign]

theorem fill_loop_length (va : Nat → CharPtr) (n k : Nat) (fr : Frame) :
    (fill_loop va n k fr).command.length = fr.command.length := by
  induction n generalizing k fr with
  | zero => simp [fill_loop]
  | succ n ih => simp [fill_loop, ih, Frame.va_arg, Frame.assign]

theorem fill_loop_get (va : Nat → CharPtr) (n k : Nat) (fr : Frame) (j : Nat) :
    (fill_loop va n k fr).command[j]? =
      if k ≤ j ∧ j < k + n ∧ j < fr.command.length then some (va j)
      else fr.command[j]? := by
  induction n generalizing k fr with
  | zero =>
    have : ¬ (k ≤ j ∧ j < k ∧ j < fr.command.length) := by omega
    simp [fill_loop, this]
  | succ n ih =>
    simp only [fill_loop, Frame.va_arg, Frame.assign, ih, List.length_set,
      Int.toNat_ofNat, Int.ofNat_zero_le, if_true, List.getElem?_set]
    by_cases hkj : k = j
    · subst hkj
      by_cases hl : k < fr.command.length
      · have h1 : ¬ (k + 1 ≤ k ∧ k < k + 1 + n ∧ k < fr.command.length) := by omega
        have h2 : k ≤ k ∧ k < k + (n + 1) ∧ k < fr.command.length := by omega
        simp [h1, h2, hl]
      · have h1 : ¬ (k + 1 ≤ k ∧ k < k + 1 + n ∧ k < fr.command.length) := by omega
        have h2 : ¬ (k ≤ k ∧ k < k + (n + 1) ∧ k < fr.command.length) := by omega
        simp [h1, h2, hl]
        omega
    · by_cases h : k + 1 ≤ j ∧ j < k + 1 + n ∧ j < fr.command.length
      · have h2 : k ≤ j ∧ j < k + (n + 1) ∧ j < fr.command.length := by omega
        simp [h, h2]
      · have h2 : ¬ (k ≤ j ∧ j < k + (n + 1) ∧ j < fr.command.length) := by omega
        simp [h, h2, hkj]

theorem mem_fill_events_store (n k : Nat) (i : Int) :
    Event.store i ∈ fill_events n k → (k : Int) ≤ i ∧ i < (k : Int) + n := by
  induction n generalizing k with
  | zero => simp [fill_events]
  | succ n ih =>
    intro h
    simp only [fill_events, List.mem_cons, Event.store.injEq] at h
    rcases h with h | h | h
    · cases h
    · subst h; omega
    · have := ih (k + 1) h
      push_cast at this ⊢
      omega

theorem build_command_trace (w : World) (count : Int) (va : Nat → CharPtr) :
    (build_command w count va).trace =
      fill_events count.toNat 0 ++ [Event.store count] := by
  simp [build_command, Frame.assign, fill_loop_trace, declare_command]

theorem build_command_length (w : World) (count : Int) (va : Nat → CharPtr) :
    (build_command w count va).command.length = (count + 1).toNat := by
  unfold build_command Frame.assign
  split <;> simp [fill_loop_length, declare_command]

theorem build_command_get (w : World) (count : Int) (va : Nat → CharPtr)
    (hc : 0 ≤ count) (j : Nat) :
    (build_command w count va).command[j]? =
      if j < count.toNat then some (va j)
      else if j = count.toNat then some CharPtr.null else none := by
  have hlen : (declare_command w count).command.length = count.toNat + 1 := by
    simp [declare_command]; omega
  simp only [build_command, Frame.assign, hc, if_true, List.getElem?_set,
    fill_loop_length, fill_loop_get, hlen]
  by_cases h1 : count.toNat = j
  · subst h1; simp
  · by_cases h2 : j < count.toNat
    · have : 0 ≤ j ∧ j < 0 + count.toNat ∧ j < count.toNat + 1 := by omega
      simp [h1, h2, this]
    · have : ¬ (0 ≤ j ∧ j < 0 + count.toNat ∧ j < count.toNat + 1) := by omega
      have h3 : ¬ j = count.toNat := fun h => h1 h.symm
      have h4 : (count + 1).toNat ≤ j := by omega
      simp [h1, h2, h3, this, declare_command, h4]

theorem build_command_first (w : World) (count : Int) (va : Nat → CharPtr)
    (hc : 1 ≤ count) : (build_command w count va).first w = va 0 := by
  have h := build_command_get w count va (by omega) 0
  have h0 : 0 < count.toNat := by omega
  simp only [h0, if_true] at h
  simp [Frame.first, List.getD, h]

theorem exec_command_not_returned (w : World) (fr : Frame) (t : List Event) (b : Bool) :
    (exec_command w fr t).outcome ≠ Outcome.returned b := by
  cases h : w.execv (fr.first w) fr.command <;> simp [exec_command, h]

theorem wait_for_child_outcome (w : World) (pid : Int) (t : List Event) :
    (wait_for_child w pid t).outcome =
      Outcome.returned (decide ((w.waitpid pid).1 ≠ -1 ∧
        WIFEXITED (w.waitpid pid).2 = true ∧ WEXITSTATUS (w.waitpid pid).2 = 0)) := by
  unfold wait_for_child
  by_cases h1 : (w.waitpid pid).1 = -1
  · simp [h1]
  · by_cases h2 : WIFEXITED (w.waitpid pid).2 = true ∧ WEXITSTATUS (w.waitpid pid).2 = 0
    · simp [h1, h2]
    · simp only [h1, if_false, h2, ne_eq, not_false_eq_true, true_and, decide_False]

theorem do_exec_parent (w : World) (count : Int) (va : Nat → CharPtr)
    (hcount : 1 ≤ count) (hparent : w.fork ≠ 0) :
    (do_exec w count va).outcome =
      Outcome.returned (decide (w.fork ≠ -1 ∧ (w.waitpid w.fork).1 ≠ -1 ∧
        WIFEXITED (w.waitpid w.fork).2 = true ∧ WEXITSTATUS (w.waitpid w.fork).2 = 0)) := by
  have hc : ¬ count < 1 := by omega
  unfold do_exec
  by_cases hf : w.fork = -1
  · simp [hc, hf]
  · simp [hc, hf, hparent, wait_for_child_outcome]

theorem do_exec_redirect_parent (w : World) (file : String) (count : Int)
    (va : Nat → CharPtr) (hcount : 1 ≤ count) (hparent : w.fork ≠ 0) :
    (do_exec_redirect w (.str file) count va).outcome =
      Outcome.returned (decide (w.fork ≠ -1 ∧ (w.waitpid w.fork).1 ≠ -1 ∧
        WIFEXITED (w.waitpid w.fork).2 = true ∧ WEXITSTATUS (w.waitpid w.fork).2 = 0)) := by
  have hc : ¬ count < 1 := by omega
  unfold do_exec_redirect
  by_cases hf : w.fork = -1
  · simp [hc, hf]
  · simp [hc, hf, hparent, wait_for_child_outcome]

theorem mem_fill_events (n k : Nat) (e : Event) :
    e ∈ fill_events n k → (∃ j, e = Event.va_arg j) ∨ (∃ i, e = Event.store i) := by
  induction n generalizing k with
  | zero => simp [fill_events]
  | succ n ih =>
    intro h
    simp only [fill_events, List.mem_cons] at h
    rcases h with h | h | h
    · exact Or.inl ⟨_, h⟩
    · exact Or.inr ⟨_, h⟩
    · exact ih (k + 1) h

theorem build_command_command (w : World) (count : Int) (va : Nat → CharPtr)
    (hc : 0 ≤ count) : (build_command w count va).command = argv_of count va := by
  apply List.ext_getElem?
  intro j
  rw [build_command_get w count va hc j]
  unfold argv_of
  by_cases h1 : j < count.toNat
  · simp [h1, List.getElem?_append_left]
  · by_cases h2 : j = count.toNat
    · subst h2
      simp [List.getElem?_append_right]
    · have h3 : count.toNat < j := by omega
      have h4 : ((List.range count.toNat).map va ++ [CharPtr.null]).length ≤ j := by
        simp; omega
      simp [h1, h2, List.getElem?_eq_none h4]

theorem exec_command_build (w : World) (count : Int) (va : Nat → CharPtr)
    (hcount : 1 ≤ count) (t : List Event) :
    exec_command w (build_command w count va) t =
      match w.execv (va 0) (argv_of count va) with
      | none => ⟨Outcome.replaced, t ++ [Event.execv (va 0) (argv_of count va)]⟩
      | some _ => ⟨Outcome.exited EXIT_FAILURE,
          t ++ [Event.execv (va 0) (argv_of count va),
                Event.perror "execv failed", Event.exit EXIT_FAILURE]⟩ := by
  unfold exec_command
  rw [build_command_first w count va hcount, build_command_command w count va (by omega)]
  cases h : w.execv (va 0) (argv_of count va) <;> simp [h]

theorem do_exec_child (w : World) (count : Int) (va : Nat → CharPtr)
    (hchild : w.fork = 0) (hcount : 1 ≤ count) :
    do_exec w count va =
      match w.execv (va 0) (argv_of count va) with
      | none => ⟨Outcome.replaced,
          fill_events count.toNat 0 ++ [Event.store count, Event.fflush, Event.fork,
            Event.execv (va 0) (argv_of count va)]⟩
      | some _ => ⟨Outcome.exited EXIT_FAILURE,
          fill_events count.toNat 0 ++ [Event.store count, Event.fflush, Event.fork,
            Event.execv (va 0) (argv_of count va),
            Event.perror "execv failed", Event.exit EXIT_FAILURE]⟩ := by
  have hc : ¬ count < 1 := by omega
  unfold do_exec
  simp only [hc, if_false, hchild, if_true, exec_command_build w count va hcount,
    build_command_trace]
  cases h : w.execv (va 0) (argv_of count va) <;> simp [h]

theorem do_exec_redirect_child (w : World) (file : String) (count : Int)
    (va : Nat → CharPtr) (hchild : w.fork = 0) (hcount : 1 ≤ count) :
    do_exec_redirect w (.str file) count va =
      if w.open_ file redirect_flags S_IRWXU = -1 then
        ⟨Outcome.exited EXIT_FAILURE,
          fill_events count.toNat 0 ++ [Event.store count, Event.fork,
            Event.open_ file redirect_flags S_IRWXU,
            Event.perror "open failed", Event.exit EXIT_FAILURE]⟩
      else if w.dup2 (w.open_ file redirect_flags S_IRWXU) STDOUT_FILENO = -1 then
        ⟨Outcome.exited EXIT_FAILURE,
          fill_events count.toNat 0 ++ [Event.store count, Event.fork,
            Event.open_ file redirect_flags S_IRWXU,
            Event.dup2 (w.open_ file redirect_flags S_IRWXU) STDOUT_FILENO,
            Event.perror "dup2 failed",
            Event.close (w.open_ file redirect_flags S_IRWXU),
            Event.exit EXIT_FAILURE]⟩
      else
        match w.execv (va 0) (argv_of count va) with
        | none => ⟨Outcome.replaced,
            fill_events count.toNat 0 ++ [Event.store count, Event.fork,
              Event.open_ file redirect_flags S_IRWXU,
              Event.dup2 (w.open_ file redirect_flags S_IRWXU) STDOUT_FILENO,
              Event.close (w.open_ file redirect_flags S_IRWXU),
              Event.execv (va 0) (argv_of count va)]⟩
        | some _ => ⟨Outcome.exited EXIT_FAILURE,
            fill_events count.toNat 0 ++ [Event.store count, Event.fork,
              Event.open_ file redirect_flags S_IRWXU,
              Event.dup2 (w.open_ file redirect_flags S_IRWXU) STDOUT_FILENO,
              Event.close (w.open_ file redirect_flags S_IRWXU),
              Event.execv (va 0) (argv_of count va),
              Event.perror "execv failed", Event.exit EXIT_FAILURE]⟩ := by
  have hc : ¬ count < 1 := by omega
  unfold do_exec_redirect
  simp only [hc, if_false, hchild, if_true, exec_command_build w count va hcount,
    build_command_trace, redirect_flags]
  by_cases ho : w.open_ file [OpenFlag.O_CREAT, OpenFlag.O_WRONLY, OpenFlag.O_TRUNC]
      S_IRWXU = -1
  · simp [ho]
  · by_cases hd : w.dup2 (w.open_ file [OpenFlag.O_CREAT, OpenFlag.O_WRONLY,
        OpenFlag.O_TRUNC] S_IRWXU) STDOUT_FILENO = -1
    · simp [ho, hd]
    · simp only [ho, hd, if_false]
      cases h : w.execv (va 0) (argv_of count va) <;> simp [h]

theorem waitpid_not_mem_fill_events (n k : Nat) (pid : Int) :
    Event.waitpid pid ∉ fill_events n k := by
  intro h
  rcases mem_fill_events n k _ h with ⟨j, hj⟩ | ⟨i, hi⟩
  · cases hj
  · cases hi

theorem execv_not_mem_fill_events (n k : Nat) (p : CharPtr) (a : List CharPtr) :
    Event.execv p a ∉ fill_events n k := by
  intro h
  rcases mem_fill_events n k _ h with ⟨j, hj⟩ | ⟨i, hi⟩
  · cases hj
  · cases hi

theorem wait_for_child_trace (w : World) (pid : Int) (t : List Event) :
    (wait_for_child w pid t).trace = t ++ [Event.waitpid pid] ∨
    (wait_for_child w pid t).trace =
      t ++ [Event.waitpid pid, Event.perror "waitpid failed"] := by
  unfold wait_for_child
  by_cases h1 : (w.waitpid pid).1 = -1
  · simp [h1]
  · by_cases h2 : WIFEXITED (w.waitpid pid).2 = true ∧ WEXITSTATUS (w.waitpid pid).2 = 0
    · simp [h1, h2]
    · left
      simp only [h1, if_false, h2]

theorem do_exec_trace_parent (w : World) (count : Int) (va : Nat → CharPtr)
    (hcount : 1 ≤ count) (hparent : w.fork ≠ 0) :
    ∃ rest, (do_exec w count va).trace =
        fill_events count.toNat 0 ++ [Event.store count, Event.fflush, Event.fork] ++ rest ∧
      ∀ e ∈ rest, (∃ pid, e = Event.waitpid pid) ∨ (∃ m, e = Event.perror m) := by
  have hc : ¬ count < 1 := by omega
  unfold do_exec
  by_cases hf : w.fork = -1
  · refine ⟨[Event.perror "fork failed"], ?_, ?_⟩
    · simp [hc, hf, build_command_trace]
    · simp
  · simp only [hc, if_false, hf, hparent, build_command_trace]
    rcases wait_for_child_trace w w.fork
        (fill_events count.toNat 0 ++ [Event.store count] ++ [Event.fflush] ++ [Event.fork])
      with h | h
    · refine ⟨[Event.waitpid w.fork], ?_, ?_⟩
      · rw [h]; simp
      · simp
    · refine ⟨[Event.waitpid w.fork, Event.perror "waitpid failed"], ?_, ?_⟩
      · rw [h]; simp
      · simp

theorem do_exec_redirect_trace_parent (w : World) (file : String) (count : Int)
    (va : Nat → CharPtr) (hcount : 1 ≤ count) (hparent : w.fork ≠ 0) :
    ∃ rest, (do_exec_redirect w (.str file) count va).trace =
        fill_events count.toNat 0 ++ [Event.store count, Event.fork] ++ rest ∧
      ∀ e ∈ rest, (∃ pid, e = Event.waitpid pid) ∨ (∃ m, e = Event.perror m) := by
  have hc : ¬ count < 1 := by omega
  unfold do_exec_redirect
  by_cases hf : w.fork = -1
  · refine ⟨[Event.perror "fork failed"], ?_, ?_⟩
    · simp [hc, hf, build_command_trace]
    · simp
  · simp only [hc, if_false, hf, hparent, build_command_trace]
    rcases wait_for_child_trace w w.fork
        (fill_events count.toNat 0 ++ [Event.store count] ++ [Event.fork])
      with h | h
    · refine ⟨[Event.waitpid w.fork], ?_, ?_⟩
      · rw [h]; simp
      · simp
    · refine ⟨[Event.waitpid w.fork, Event.perror "waitpid failed"], ?_, ?_⟩
      · rw [h]; simp
      · simp

theorem argv_of_length (count : Int) (va : Nat → CharPtr) (hc : 0 ≤ count) :
    ((argv_of count va).length : Int) = count + 1 := by
  simp [argv_of]
  omega

theorem argv_of_get (count : Int) (va : Nat → CharPtr) (i : Nat) (hi : (i : Int) < count) :
    (argv_of count va)[i]? = some (va i) := by
  have h : i < count.toNat := by omega
  simp [argv_of, List.getElem?_append_left, h]

theorem argv_of_last (count : Int) (va : Nat → CharPtr) :
    (argv_of count va)[count.toNat]? = some CharPtr.null := by
  simp [argv_of, List.getElem?_append_right]

theorem not_mem_rest {rest : List Event}
    (hrest : ∀ e ∈ rest, (∃ pid, e = Event.waitpid pid) ∨ (∃ m, e = Event.perror m)) :
    (∀ p a, Event.execv p a ∉ rest) ∧ (∀ i, Event.store i ∉ rest) := by
  constructor
  · intro p a h
    rcases hrest _ h with ⟨_, h1⟩ | ⟨_, h1⟩ <;> cases h1
  · intro i h
    rcases hrest _ h with ⟨_, h1⟩ | ⟨_, h1⟩ <;> cases h1

theorem store_bound (count i : Int) (hcount : 1 ≤ count)
    (h : Event.store i ∈ fill_events count.toNat 0 ∨ i = count) :
    0 ≤ i ∧ i < count + 1 := by
  rcases h with h | h
  · have := mem_fill_events_store _ _ _ h
    omega
  · omega

theorem execv_mem_do_exec (w : World) (count : Int) (va : Nat → CharPtr)
    (hcount : 1 ≤ count) (p : CharPtr) (a : List CharPtr)
    (h : Event.execv p a ∈ (do_exec w count va).trace) :
    p = va 0 ∧ a = argv_of count va := by
  by_cases hchild : w.fork = 0
  · rw [do_exec_child w count va hchild hcount] at h
    cases hx : w.execv (va 0) (argv_of count va) <;>
      simpa [hx, execv_not_mem_fill_events] using h
  · obtain ⟨rest, htr, hrest⟩ := do_exec_trace_parent w count va hcount hchild
    rw [htr] at h
    simp [execv_not_mem_fill_events, (not_mem_rest hrest).1] at h

theorem store_mem_do_exec (w : World) (count : Int) (va : Nat → CharPtr)
    (hcount : 1 ≤ count) (i : Int)
    (h : Event.store i ∈ (do_exec w count va).trace) : 0 ≤ i ∧ i < count + 1 := by
  apply store_bound count i hcount
  by_cases hchild : w.fork = 0
  · rw [do_exec_child w count va hchild hcount] at h
    cases hx : w.execv (va 0) (argv_of count va) <;>
      simpa [hx] using h
  · obtain ⟨rest, htr, hrest⟩ := do_exec_trace_parent w count va hcount hchild
    rw [htr] at h
    simpa [(not_mem_rest hrest).2] using h

theorem execv_mem_do_exec_redirect (w : World) (file : String) (count : Int)
    (va : Nat → CharPtr) (hcount : 1 ≤ count) (p : CharPtr) (a : List CharPtr)
    (h : Event.execv p a ∈ (do_exec_redirect w (.str file) count va).trace) :
    p = va 0 ∧ a = argv_of count va := by
  by_cases hchild : w.fork = 0
  · rw [do_exec_redirect_child w file count va hchild hcount] at h
    by_cases ho : w.open_ file redirect_flags S_IRWXU = -1
    · simp [ho, execv_not_mem_fill_events] at h
    · by_cases hd : w.dup2 (w.open_ file redirect_flags S_IRWXU) STDOUT_FILENO = -1
      · simp [ho, hd, execv_not_mem_fill_events] at h
      · rw [if_neg ho, if_neg hd] at h
        cases hx : w.execv (va 0) (argv_of count va) <;>
          simpa [hx, execv_not_mem_fill_events] using h
  · obtain ⟨rest, htr, hrest⟩ := do_exec_redirect_trace_parent w file count va hcount hchild
    rw [htr] at h
    simp [execv_not_mem_fill_events, (not_mem_rest hrest).1] at h

theorem store_mem_do_exec_redirect (w : World) (file : String) (count : Int)
    (va : Nat → CharPtr) (hcount : 1 ≤ count) (i : Int)
    (h : Event.store i ∈ (do_exec_redirect w (.str file) count va).trace) :
    0 ≤ i ∧ i < count + 1 := by
  apply store_bound count i hcount
  by_cases hchild : w.fork = 0
  · rw [do_exec_redirect_child w file count va hchild hcount] at h
    by_cases ho : w.open_ file redirect_flags S_IRWXU = -1
    · simpa [ho] using h
    · by_cases hd : w.dup2 (w.open_ file redirect_flags S_IRWXU) STDOUT_FILENO = -1
      · simpa [ho, hd] using h
      · rw [if_neg ho, if_neg hd] at h
        cases hx : w.execv (va 0) (argv_of count va) <;>
          simpa [hx] using h
  · obtain ⟨rest, htr, hrest⟩ := do_exec_redirect_trace_parent w file count va hcount hchild
    rw [htr] at h
    simpa [(not_mem_rest hrest).2] using h

/-! ## The claims -/

/-- C1: in the calling process (the one in which `fork` does not return `0`),
for every `count >= 1`, `do_exec` returns true if and only if `fork` did not
return `-1`, `waitpid` did not return `-1`, and the raw wait status satisfies
`WIFEXITED` with `WEXITSTATUS` equal to `0`; in every other case it returns
false. -/
theorem do_exec_true_iff_clean_exit (w : World) (count : Int) (va : Nat → CharPtr)
    (hcount : 1 ≤ count) (hparent : w.fork ≠ 0) :
    ((do_exec w count va).outcome = Outcome.returned true ↔
      (w.fork ≠ -1 ∧ (w.waitpid w.fork).1 ≠ -1 ∧
        WIFEXITED (w.waitpid w.fork).2 = true ∧ WEXITSTATUS (w.waitpid w.fork).2 = 0)) ∧
    (¬ (w.fork ≠ -1 ∧ (w.waitpid w.fork).1 ≠ -1 ∧
        WIFEXITED (w.waitpid w.fork).2 = true ∧ WEXITSTATUS (w.waitpid w.fork).2 = 0) →
      (do_exec w count va).outcome = Outcome.returned false) := by
  rw [do_exec_parent w count va hcount hparent]
  constructor
  · simp
  · intro h
    simp [h]

/-- Witness of C1: a child that exits normally with code `0` (raw status `0`). -/
theorem do_exec_true_iff_clean_exit_witness :
    (1 : Int) ≤ 1 ∧ (parentWorld 42 0).fork ≠ 0 ∧
    (((do_exec (parentWorld 42 0) 1 (va_of [.str "/bin/true"])).outcome
        = Outcome.returned true ↔
      ((parentWorld 42 0).fork ≠ -1 ∧
        ((parentWorld 42 0).waitpid (parentWorld 42 0).fork).1 ≠ -1 ∧
        WIFEXITED ((parentWorld 42 0).waitpid (parentWorld 42 0).fork).2 = true ∧
        WEXITSTATUS ((parentWorld 42 0).waitpid (parentWorld 42 0).fork).2 = 0)) ∧
    (¬ ((parentWorld 42 0).fork ≠ -1 ∧
        ((parentWorld 42 0).waitpid (parentWorld 42 0).fork).1 ≠ -1 ∧
        WIFEXITED ((parentWorld 42 0).waitpid (parentWorld 42 0).fork).2 = true ∧
        WEXITSTATUS ((parentWorld 42 0).waitpid (parentWorld 42 0).fork).2 = 0) →
      (do_exec (parentWorld 42 0) 1 (va_of [.str "/bin/true"])).outcome
        = Outcome.returned false)) :=
  ⟨by decide, by decide,
    do_exec_true_iff_clean_exit (parentWorld 42 0) 1 (va_of [.str "/bin/true"])
      (by decide) (by decide)⟩

/-- C2: at the raw status `9` (the command was killed by signal 9, so
`WIFEXITED` is false) `do_system` returns true, although an abnormally
terminated command has to give false. -/
theorem do_system_true_on_signal_status :
    WIFEXITED 9 = false ∧ (parentWorld 42 9).system "kill -9 $$" = 9 ∧
    do_system (parentWorld 42 9) (.str "kill -9 $$") =
      ⟨Outcome.returned true, [Event.system "kill -9 $$"]⟩ := by
  decide

/-- C3 as stated fails: for the empty command string the interpreter is
invoked, and `do_system` returns true when it reports status `0`. -/
theorem do_system_empty_cmd_calls_system :
    do_system (parentWorld 42 0) (.str "") =
        ⟨Outcome.returned true, [Event.system ""]⟩ ∧
    ¬ (∀ (w : World) (cmd : CharPtr), cmd = .null ∨ cmd = .str "" →
        (do_system w cmd).outcome = Outcome.returned false ∧
        ∀ c, Event.system c ∉ (do_system w cmd).trace) := by
  refine ⟨by decide, fun h => ?_⟩
  have h1 := (h (parentWorld 42 0) (.str "") (Or.inr rfl)).1
  revert h1
  decide

/-- C3, amended: for the absent (NULL) command `do_system` returns false and
performs no call at all, so `system` is never invoked. -/
theorem do_system_null (w : World) :
    do_system w .null = ⟨Outcome.returned false, []⟩ := by
  rfl

/-- C4: for every `count < 1` and every `outputfile`, `do_exec` and
`do_exec_redirect` return false with an empty trace: no variadic argument is
read and no call (`fork`, `execv`, `open`, `waitpid`, ...) is made. -/
theorem count_below_one_returns_false (w : World) (outputfile : CharPtr) (count : Int)
    (va : Nat → CharPtr) (hcount : count < 1) :
    do_exec w count va = ⟨Outcome.returned false, []⟩ ∧
    do_exec_redirect w outputfile count va = ⟨Outcome.returned false, []⟩ := by
  constructor
  · simp [do_exec, hcount]
  · cases outputfile <;> simp [do_exec_redirect, hcount]

/-- Witness of C4: `count = 0` with an output file. -/
theorem count_below_one_returns_false_witness :
    (0 : Int) < 1 ∧
    do_exec (parentWorld 42 0) 0 (va_of []) = ⟨Outcome.returned false, []⟩ ∧
    do_exec_redirect (parentWorld 42 0) (.str "/tmp/out") 0 (va_of [])
      = ⟨Outcome.returned false, []⟩ :=
  ⟨by decide,
    count_below_one_returns_false (parentWorld 42 0) (.str "/tmp/out") 0 (va_of [])
      (by decide)⟩

/-- C5 as stated fails: with the empty string as output file and one argument
the calling process does call `fork` (and then waits for the child). -/
theorem do_exec_redirect_empty_outputfile_forks :
    do_exec_redirect (parentWorld 42 256) (.str "") 1 (va_of [.str "/bin/true"]) =
        ⟨Outcome.returned false,
          [Event.va_arg 0, Event.store 0, Event.store 1, Event.fork, Event.waitpid 42]⟩ ∧
    ¬ (∀ (w : World) (outputfile : CharPtr) (count : Int) (va : Nat → CharPtr),
        outputfile = .null ∨ outputfile = .str "" →
        (do_exec_redirect w outputfile count va).outcome = Outcome.returned false ∧
        Event.fork ∉ (do_exec_redirect w outputfile count va).trace) := by
  refine ⟨by decide, fun h => ?_⟩
  have h1 := (h (parentWorld 42 256) (.str "") 1 (va_of [.str "/bin/true"]) (Or.inr rfl)).2
  revert h1
  decide

/-- C5, amended: for the absent (NULL) output file, with any count and
arguments, `do_exec_redirect` returns false and performs no call at all, so
`fork` is never called. -/
theorem do_exec_redirect_null_outputfile (w : World) (count : Int) (va : Nat → CharPtr) :
    do_exec_redirect w .null count va = ⟨Outcome.returned false, []⟩ := by
  rfl

/-- C6: in the child (`fork` returned `0`), in `do_exec` and in
`do_exec_redirect`, the function never executes a `return`, never calls
`waitpid`, and whenever `execv` returns the child ends with
`exit(EXIT_FAILURE)`, a non-zero status. -/
theorem child_never_reaches_parent_logic (w : World) (file : String) (count : Int)
    (va : Nat → CharPtr) (hchild : w.fork = 0) (hcount : 1 ≤ count) :
    ((∀ b, (do_exec w count va).outcome ≠ Outcome.returned b) ∧
     (∀ pid, Event.waitpid pid ∉ (do_exec w count va).trace) ∧
     (∀ r, w.execv (va 0) (argv_of count va) = some r →
        (do_exec w count va).outcome = Outcome.exited EXIT_FAILURE ∧
        (do_exec w count va).trace.getLast? = some (Event.exit EXIT_FAILURE))) ∧
    ((∀ b, (do_exec_redirect w (.str file) count va).outcome ≠ Outcome.returned b) ∧
     (∀ pid, Event.waitpid pid ∉ (do_exec_redirect w (.str file) count va).trace) ∧
     (∀ r, w.execv (va 0) (argv_of count va) = some r →
        (do_exec_redirect w (.str file) count va).outcome = Outcome.exited EXIT_FAILURE ∧
        (do_exec_redirect w (.str file) count va).trace.getLast?
          = some (Event.exit EXIT_FAILURE))) ∧
    EXIT_FAILURE ≠ 0 := by
  refine ⟨?_, ?_, by decide⟩
  · rw [do_exec_child w count va hchild hcount]
    cases h : w.execv (va 0) (argv_of count va) <;>
      simp [waitpid_not_mem_fill_events, List.getLast?_append]
  · rw [do_exec_redirect_child w file count va hchild hcount]
    by_cases ho : w.open_ file redirect_flags S_IRWXU = -1
    · simp [ho, waitpid_not_mem_fill_events, List.getLast?_append]
    · by_cases hd : w.dup2 (w.open_ file redirect_flags S_IRWXU) STDOUT_FILENO = -1
      · simp [ho, hd, waitpid_not_mem_fill_events, List.getLast?_append]
      · cases h : w.execv (va 0) (argv_of count va) <;>
          simp [ho, hd, waitpid_not_mem_fill_events, List.getLast?_append]

/-- Witness of C6: a child in which `open` and `dup2` succeed and `execv`
returns `-1`. -/
theorem child_never_reaches_parent_logic_witness :
    (childWorld 3 1 (some (-1))).fork = 0 ∧ (1 : Int) ≤ 1 ∧
    (do_exec (childWorld 3 1 (some (-1))) 1 (va_of [.str "/no/such"])).outcome
      = Outcome.exited EXIT_FAILURE ∧
    (do_exec_redirect (childWorld 3 1 (some (-1))) (.str "/tmp/out") 1
      (va_of [.str "/no/such"])).outcome = Outcome.exited EXIT_FAILURE :=
  ⟨by decide, by decide,
    ((child_never_reaches_parent_logic (childWorld 3 1 (some (-1))) "/tmp/out" 1
      (va_of [.str "/no/such"]) (by decide) (by decide)).1.2.2 (-1) (by decide)).1,
    ((child_never_reaches_parent_logic (childWorld 3 1 (some (-1))) "/tmp/out" 1
      (va_of [.str "/no/such"]) (by decide) (by decide)).2.1.2.2 (-1) (by decide)).1⟩

/-- C7: in the child of `do_exec_redirect`, when `open` and `dup2` both succeed,
the calls after `fork` are, in this order, `open(outputfile, O_CREAT | O_WRONLY
| O_TRUNC, S_IRWXU)`, `dup2(fd, STDOUT_FILENO)`, `close(fd)` and then
`execv`; before them only the argument vector is built; after them comes
nothing when `execv` succeeds, and `perror`, `exit` when it returns.  The
flags do not contain `O_APPEND`, the mode is `0700` and the target
descriptor is `1`. -/
theorem redirect_child_call_sequence (w : World) (file : String) (count : Int)
    (va : Nat → CharPtr) (hchild : w.fork = 0) (hcount : 1 ≤ count)
    (hopen : w.open_ file redirect_flags S_IRWXU ≠ -1)
    (hdup : w.dup2 (w.open_ file redirect_flags S_IRWXU) STDOUT_FILENO ≠ -1) :
    (do_exec_redirect w (.str file) count va).trace =
      (fill_events count.toNat 0 ++ [Event.store count]) ++
      [Event.fork,
       Event.open_ file [OpenFlag.O_CREAT, OpenFlag.O_WRONLY, OpenFlag.O_TRUNC] 0o700,
       Event.dup2 (w.open_ file redirect_flags S_IRWXU) 1,
       Event.close (w.open_ file redirect_flags S_IRWXU),
       Event.execv (va 0) (argv_of count va)] ++
      (match w.execv (va 0) (argv_of count va) with
        | none => []
        | some _ => [Event.perror "execv failed", Event.exit EXIT_FAILURE]) ∧
    OpenFlag.O_APPEND ∉ redirect_flags ∧
    (∀ e ∈ fill_events count.toNat 0 ++ [Event.store count],
      (∃ j, e = Event.va_arg j) ∨ (∃ i, e = Event.store i)) := by
  refine ⟨?_, by decide, ?_⟩
  · rw [do_exec_redirect_child w file count va hchild hcount, if_neg hopen, if_neg hdup]
    cases h : w.execv (va 0) (argv_of count va) <;>
      simp [redirect_flags, S_IRWXU, STDOUT_FILENO]
  · intro e he
    rcases List.mem_append.1 he with h | h
    · exact mem_fill_events _ _ e h
    · exact Or.inr ⟨count, by simpa using h⟩

/-- Witness of C7: a child in which `open` returns descriptor `3`, `dup2`
returns `1` and `execv` succeeds. -/
theorem redirect_child_call_sequence_witness :
    (childWorld 3 1 none).fork = 0 ∧ (1 : Int) ≤ 2 ∧
    (childWorld 3 1 none).open_ "/tmp/out" redirect_flags S_IRWXU ≠ -1 ∧
    (childWorld 3 1 none).dup2
      ((childWorld 3 1 none).open_ "/tmp/out" redirect_flags S_IRWXU) STDOUT_FILENO ≠ -1 ∧
    (do_exec_redirect (childWorld 3 1 none) (.str "/tmp/out") 2
        (va_of [.str "/bin/echo", .str "hi"])).trace =
      [Event.va_arg 0, Event.store 0, Event.va_arg 1, Event.store 1, Event.store 2,
       Event.fork,
       Event.open_ "/tmp/out" [OpenFlag.O_CREAT, OpenFlag.O_WRONLY, OpenFlag.O_TRUNC] 0o700,
       Event.dup2 3 1, Event.close 3,
       Event.execv (.str "/bin/echo") [.str "/bin/echo", .str "hi", .null]] :=
  ⟨by decide, by decide, by decide, by decide,
    (redirect_child_call_sequence (childWorld 3 1 none) "/tmp/out" 2
      (va_of [.str "/bin/echo", .str "hi"])
      (by decide) (by decide) (by decide) (by decide)).1.trans (by decide)⟩

/-- C8: in the child of `do_exec_redirect`, when `open` returns `-1` the child
calls `perror` and `exit(EXIT_FAILURE)` right after `open` (no `dup2`,
`close` or `execv`); when `open` succeeds and `dup2` returns `-1` the child
calls `perror`, `close(fd)` and `exit(EXIT_FAILURE)` (no `execv`).
`EXIT_FAILURE` is non-zero, and the calling process, whose `waitpid` reports
a status with that exit code, returns false. -/
theorem redirect_setup_failure (child parent : World) (file : String) (count : Int)
    (va : Nat → CharPtr) (hcount : 1 ≤ count) (hchild : child.fork = 0)
    (hparent : parent.fork ≠ 0)
    (hcode : WEXITSTATUS (parent.waitpid parent.fork).2 = EXIT_FAILURE) :
    (child.open_ file redirect_flags S_IRWXU = -1 →
      do_exec_redirect child (.str file) count va =
        ⟨Outcome.exited EXIT_FAILURE,
          (fill_events count.toNat 0 ++ [Event.store count]) ++
          [Event.fork, Event.open_ file redirect_flags S_IRWXU,
           Event.perror "open failed", Event.exit EXIT_FAILURE]⟩) ∧
    (child.open_ file redirect_flags S_IRWXU ≠ -1 →
      child.dup2 (child.open_ file redirect_flags S_IRWXU) STDOUT_FILENO = -1 →
      do_exec_redirect child (.str file) count va =
        ⟨Outcome.exited EXIT_FAILURE,
          (fill_events count.toNat 0 ++ [Event.store count]) ++
          [Event.fork, Event.open_ file redirect_flags S_IRWXU,
           Event.dup2 (child.open_ file redirect_flags S_IRWXU) STDOUT_FILENO,
           Event.perror "dup2 failed",
           Event.close (child.open_ file redirect_flags S_IRWXU),
           Event.exit EXIT_FAILURE]⟩) ∧
    EXIT_FAILURE ≠ 0 ∧
    (do_exec_redirect parent (.str file) count va).outcome = Outcome.returned false := by
  refine ⟨?_, ?_, by decide, ?_⟩
  · intro ho
    rw [do_exec_redirect_child child file count va hchild hcount, if_pos ho]
    simp
  · intro ho hd
    rw [do_exec_redirect_child child file count va hchild hcount, if_neg ho, if_pos hd]
    simp
  · rw [do_exec_redirect_parent parent file count va hcount hparent, hcode]
    simp [EXIT_FAILURE]

/-- Witness of C8: one child whose `open` fails, one child whose `dup2` fails,
and a calling process that is told the raw status `256` (normal exit, code 1). -/
theorem redirect_setup_failure_witness :
    (1 : Int) ≤ 1 ∧ (childWorld (-1) 1 none).fork = 0 ∧ (childWorld 3 (-1) none).fork = 0 ∧
    (parentWorld 42 256).fork ≠ 0 ∧
    WIFEXITED ((parentWorld 42 256).waitpid (parentWorld 42 256).fork).2 = true ∧
    WEXITSTATUS ((parentWorld 42 256).waitpid (parentWorld 42 256).fork).2 = EXIT_FAILURE ∧
    do_exec_redirect (childWorld (-1) 1 none) (.str "/no/dir/out") 1
        (va_of [.str "/bin/true"]) =
      ⟨Outcome.exited 1,
        [Event.va_arg 0, Event.store 0, Event.store 1, Event.fork,
         Event.open_ "/no/dir/out"
           [OpenFlag.O_CREAT, OpenFlag.O_WRONLY, OpenFlag.O_TRUNC] 0o700,
         Event.perror "open failed", Event.exit 1]⟩ ∧
    do_exec_redirect (childWorld 3 (-1) none) (.str "/tmp/out") 1
        (va_of [.str "/bin/true"]) =
      ⟨Outcome.exited 1,
        [Event.va_arg 0, Event.store 0, Event.store 1, Event.fork,
         Event.open_ "/tmp/out"
           [OpenFlag.O_CREAT, OpenFlag.O_WRONLY, OpenFlag.O_TRUNC] 0o700,
         Event.dup2 3 1, Event.perror "dup2 failed", Event.close 3, Event.exit 1]⟩ ∧
    (do_exec_redirect (parentWorld 42 256) (.str "/tmp/out") 1
        (va_of [.str "/bin/true"])).outcome = Outcome.returned false :=
  ⟨by decide, by decide, by decide, by decide, by decide, by decide,
    ((redirect_setup_failure (childWorld (-1) 1 none) (parentWorld 42 256) "/no/dir/out" 1
      (va_of [.str "/bin/true"]) (by decide) (by decide) (by decide) (by decide)).1 (by decide)).trans (by decide),
    ((redirect_setup_failure (childWorld 3 (-1) none) (parentWorld 42 256) "/tmp/out" 1
      (va_of [.str "/bin/true"]) (by decide) (by decide) (by decide) (by decide)).2.1 (by decide) (by decide)).trans (by decide),
    (redirect_setup_failure (childWorld 3 (-1) none) (parentWorld 42 256) "/tmp/out" 1
      (va_of [.str "/bin/true"]) (by decide) (by decide) (by decide) (by decide)).2.2.2⟩

/-- C9: for every `count >= 1`, every `execv` call made by `do_exec` or
`do_exec_redirect` receives as path variadic argument `0` and as vector an
array of exactly `count + 1` entries whose entry `i` is variadic argument `i`
for every `i < count`, whose entry `count` is the null pointer and whose
entry `0` is the path; every write `command[i] = ...` has `0 <= i < count + 1`;
and the child does reach that `execv` call (in `do_exec_redirect` when `open`
and `dup2` succeed). -/
theorem argument_vector_of_execv (w : World) (outputfile : CharPtr) (count : Int)
    (va : Nat → CharPtr) (hcount : 1 ≤ count) :
    (∀ p a, (Event.execv p a ∈ (do_exec w count va).trace ∨
             Event.execv p a ∈ (do_exec_redirect w outputfile count va).trace) →
      p = va 0 ∧ (a.length : Int) = count + 1 ∧
      (∀ i : Nat, (i : Int) < count → a[i]? = some (va i)) ∧
      a[count.toNat]? = some CharPtr.null ∧ a[0]? = some p) ∧
    (∀ i, (Event.store i ∈ (do_exec w count va).trace ∨
           Event.store i ∈ (do_exec_redirect w outputfile count va).trace) →
      0 ≤ i ∧ i < count + 1) ∧
    (w.fork = 0 → ∃ a, Event.execv (va 0) a ∈ (do_exec w count va).trace) ∧
    (w.fork = 0 → ∀ file, outputfile = .str file →
      w.open_ file redirect_flags S_IRWXU ≠ -1 →
      w.dup2 (w.open_ file redirect_flags S_IRWXU) STDOUT_FILENO ≠ -1 →
      ∃ a, Event.execv (va 0) a ∈ (do_exec_redirect w outputfile count va).trace) := by
  have key : ∀ p a, p = va 0 ∧ a = argv_of count va →
      p = va 0 ∧ (a.length : Int) = count + 1 ∧
      (∀ i : Nat, (i : Int) < count → a[i]? = some (va i)) ∧
      a[count.toNat]? = some CharPtr.null ∧ a[0]? = some p := by
    rintro p a ⟨rfl, rfl⟩
    exact ⟨rfl, argv_of_length count va (by omega), argv_of_get count va,
      argv_of_last count va, argv_of_get count va 0 (by omega)⟩
  refine ⟨?_, ?_, ?_, ?_⟩
  · rintro p a (h | h)
    · exact key p a (execv_mem_do_exec w count va hcount p a h)
    · cases outputfile with
      | null => simp [do_exec_redirect] at h
      | str file => exact key p a (execv_mem_do_exec_redirect w file count va hcount p a h)
  · rintro i (h | h)
    · exact store_mem_do_exec w count va hcount i h
    · cases outputfile with
      | null => simp [do_exec_redirect] at h
      | str file => exact store_mem_do_exec_redirect w file count va hcount i h
  · intro hchild
    refine ⟨argv_of count va, ?_⟩
    rw [do_exec_child w count va hchild hcount]
    cases hx : w.execv (va 0) (argv_of count va) <;> simp
  · rintro hchild file rfl ho hd
    refine ⟨argv_of count va, ?_⟩
    rw [do_exec_redirect_child w file count va hchild hcount, if_neg ho, if_neg hd]
    cases hx : w.execv (va 0) (argv_of count va) <;> simp

/-- Witness of C9: the child of `do_exec(3, "/bin/echo", "a", "b")` hands
`execv` the path `/bin/echo` and a vector of `3 + 1` entries. -/
theorem argument_vector_of_execv_witness :
    (1 : Int) ≤ 3 ∧
    Event.execv (.str "/bin/echo") [.str "/bin/echo", .str "a", .str "b", .null] ∈
      (do_exec (childWorld 3 1 none) 3 (va_of [.str "/bin/echo", .str "a", .str "b"])).trace ∧
    (CharPtr.str "/bin/echo" = va_of [.str "/bin/echo", .str "a", .str "b"] 0 ∧
      (([CharPtr.str "/bin/echo", .str "a", .str "b", .null].length : Nat) : Int) = 3 + 1 ∧
      (∀ i : Nat, (i : Int) < 3 →
        [CharPtr.str "/bin/echo", .str "a", .str "b", .null][i]?
          = some (va_of [.str "/bin/echo", .str "a", .str "b"] i)) ∧
      [CharPtr.str "/bin/echo", .str "a", .str "b", .null][(3 : Int).toNat]?
        = some CharPtr.null ∧
      [CharPtr.str "/bin/echo", .str "a", .str "b", .null][0]?
        = some (CharPtr.str "/bin/echo")) :=
  ⟨by decide, by decide,
    (argument_vector_of_execv (childWorld 3 1 none) (.str "/tmp/out") 3
      (va_of [.str "/bin/echo", .str "a", .str "b"]) (by decide)).1 _ _
      (Or.inl (by decide))⟩

/-- C10: for every non-NULL `cmd`, `do_system` returns true exactly when the
value `ret` of `system()` is not `-1` and `WEXITSTATUS(ret)` is `0`, and
false otherwise; this is the same as `WEXITSTATUS(ret) == 0` alone, so the
result is a function of the exit-code byte and `WIFEXITED` plays no part.
For the raw status `9` (signal field 9, exit-code byte 0) `do_system`
returns true while `do_exec`, told the same status by `waitpid`, returns
false. -/
theorem do_system_depends_on_exit_byte_only :
    (∀ (w : World) (c : String),
      (do_system w (.str c)).outcome =
        Outcome.returned (decide (w.system c ≠ -1 ∧ WEXITSTATUS (w.system c) = 0))) ∧
    (∀ (w : World) (c : String),
      (do_system w (.str c)).outcome =
        Outcome.returned (decide (WEXITSTATUS (w.system c) = 0))) ∧
    (WIFEXITED 9 = false ∧ WEXITSTATUS 9 = 0 ∧
      (parentWorld 42 9).system "kill -9 $$" = 9 ∧
      (parentWorld 42 9).waitpid 42 = (42, 9) ∧
      (do_system (parentWorld 42 9) (.str "kill -9 $$")).outcome = Outcome.returned true ∧
      (do_exec (parentWorld 42 9) 1 (va_of [.str "/bin/sleep"])).outcome
        = Outcome.returned false) := by
  have h1 : ∀ (w : World) (c : String),
      (do_system w (.str c)).outcome =
        Outcome.returned (decide (w.system c ≠ -1 ∧ WEXITSTATUS (w.system c) = 0)) := by
    intro w c
    show (if w.system c = -1 ∨ WEXITSTATUS (w.system c) ≠ 0 then _ else _ : Run).outcome = _
    by_cases h : w.system c = -1 ∨ WEXITSTATUS (w.system c) ≠ 0
    · have h2 : ¬ (w.system c ≠ -1 ∧ WEXITSTATUS (w.system c) = 0) := by tauto
      rw [if_pos h, decide_eq_false h2]
    · have h2 : w.system c ≠ -1 ∧ WEXITSTATUS (w.system c) = 0 := by tauto
      rw [if_neg h, decide_eq_true h2]
  refine ⟨h1, ?_, by decide⟩
  intro w c
  rw [h1 w c]
  by_cases h : w.system c = -1
  · simp [h, WEXITSTATUS_neg_one]
  · simp [h]

end Systemcalls
